import Mathlib

/-!
Verification of the V4L2 compatibility camera proxy (v4l2_camera_proxy.cpp).

This file gives a shallow embedding of the device-emulation state machine of
the V4L2 compatibility layer: the static pixel-format table and the derived
layout computations, the format-negotiation routine `tryFormat`, and the
per-ioctl handlers of `V4L2CameraProxy` (reqbufs, querybuf, qbuf, dqbuf,
streamon, streamoff, s_fmt, try_fmt, s_priority) together with the
validation prefix of the ioctl dispatcher.

Machine integers are modelled as `Nat` (all the quantities involved are
unsigned and no computation in the modelled code overflows 32 bits for the
inputs considered).  Fourcc codes are modelled by their numeric values as
defined in the external ABI headers (drm_fourcc.h / videodev2.h).  The
per-buffer flag word `v4l2_buffer::flags` is modelled as one Boolean per
flag bit used by the proxy (QUEUED, DONE, ERROR, MAPPED,
TIMESTAMP_MONOTONIC).

The backend camera wrapper (class V4L2Camera) is a collaborator of the
proxy; only its header is available.  Its observable state (running flag,
queue of completed-buffer records, buffer-available count) is folded into
the device state, and the results of its fallible calls (configure,
allocBuffers, qbuf, streamOn/Off) are passed to the handlers as explicit
oracle arguments.
-/

deriving instance DecidableEq for Except

namespace V4l2

/-! ### Error codes (errno values of the emulated ABI) -/

def EAGAIN : Nat := 11
def ENOMEM : Nat := 12
def EFAULT : Nat := 14
def EBUSY : Nat := 16
def EINVAL : Nat := 22
def ENOTTY : Nat := 25

/-! ### Fourcc codes

`fourcc a b c d` is the little-endian four-character code used both by DRM
(libcamera `PixelFormat`) and by V4L2 pixel formats. -/

def fourcc (a b c d : Nat) : Nat := a + 256 * b + 65536 * c + 16777216 * d

/-- libcamera `formats::RGB888` = DRM fourcc RG24. -/
def fmtRGB888 : Nat := fourcc 82 71 50 52
/-- libcamera `formats::BGR888` = DRM fourcc BG24. -/
def fmtBGR888 : Nat := fourcc 66 71 50 52
/-- libcamera `formats::BGRA8888` = DRM fourcc BA24. -/
def fmtBGRA8888 : Nat := fourcc 66 65 50 52
/-- libcamera `formats::UYVY`. -/
def fmtUYVY : Nat := fourcc 85 89 86 89
/-- libcamera `formats::VYUY`. -/
def fmtVYUY : Nat := fourcc 86 89 85 89
/-- libcamera `formats::YUYV`. -/
def fmtYUYV : Nat := fourcc 89 85 89 86
/-- libcamera `formats::YVYU`. -/
def fmtYVYU : Nat := fourcc 89 86 89 85
/-- libcamera `formats::NV12`. -/
def fmtNV12 : Nat := fourcc 78 86 49 50
/-- libcamera `formats::NV21`. -/
def fmtNV21 : Nat := fourcc 78 86 50 49
/-- libcamera `formats::NV16`. -/
def fmtNV16 : Nat := fourcc 78 86 49 54
/-- libcamera `formats::NV61`. -/
def fmtNV61 : Nat := fourcc 78 86 54 49
/-- libcamera `formats::NV24`. -/
def fmtNV24 : Nat := fourcc 78 86 50 52
/-- libcamera `formats::NV42`. -/
def fmtNV42 : Nat := fourcc 78 86 52 50
/-- libcamera `formats::YUV420` = DRM fourcc YU12. -/
def fmtYUV420 : Nat := fourcc 89 85 49 50
/-- libcamera `formats::YUV422` = DRM fourcc YU16. -/
def fmtYUV422 : Nat := fourcc 89 85 49 54
/-- libcamera `formats::MJPEG` = fourcc MJPG. -/
def fmtMJPEG : Nat := fourcc 77 74 80 71

/-- V4L2_PIX_FMT_BGR24 = fourcc BGR3. -/
def pixFmtBGR24 : Nat := fourcc 66 71 82 51
/-- V4L2_PIX_FMT_RGB24 = fourcc RGB3. -/
def pixFmtRGB24 : Nat := fourcc 82 71 66 51
/-- V4L2_PIX_FMT_ARGB32 = fourcc BA24. -/
def pixFmtARGB32 : Nat := fourcc 66 65 50 52
/-- V4L2_PIX_FMT_YUV420 = fourcc YU12. -/
def pixFmtYUV420 : Nat := fourcc 89 85 49 50
/-- V4L2_PIX_FMT_YUV422P = fourcc 422P. -/
def pixFmtYUV422P : Nat := fourcc 52 50 50 80
/-- V4L2_PIX_FMT_MJPEG = fourcc MJPG. -/
def pixFmtMJPEG : Nat := fourcc 77 74 80 71

/-! ### The static pixel-format table (struct PixelFormatInfo array) -/

/-- One plane entry of `PixelFormatPlaneInfo`. -/
structure PlaneInfo where
  bitsPerPixel : Nat
  hSubSampling : Nat
  vSubSampling : Nat
deriving DecidableEq, Repr, Inhabited

/-- One row of the static `pixelFormatInfo` table. -/
structure PixelFormatInfo where
  format : Nat
  v4l2Format : Nat
  numPlanes : Nat
  planes : List PlaneInfo
deriving DecidableEq, Repr, Inhabited

/-- The static 16-entry `pixelFormatInfo` table of v4l2_camera_proxy.cpp. -/
def pixelFormatInfo : List PixelFormatInfo := [
  ⟨fmtRGB888, pixFmtBGR24, 1, [⟨24, 1, 1⟩, ⟨0, 0, 0⟩, ⟨0, 0, 0⟩]⟩,
  ⟨fmtBGR888, pixFmtRGB24, 1, [⟨24, 1, 1⟩, ⟨0, 0, 0⟩, ⟨0, 0, 0⟩]⟩,
  ⟨fmtBGRA8888, pixFmtARGB32, 1, [⟨32, 1, 1⟩, ⟨0, 0, 0⟩, ⟨0, 0, 0⟩]⟩,
  ⟨fmtUYVY, fmtUYVY, 1, [⟨16, 1, 1⟩, ⟨0, 0, 0⟩, ⟨0, 0, 0⟩]⟩,
  ⟨fmtVYUY, fmtVYUY, 1, [⟨16, 1, 1⟩, ⟨0, 0, 0⟩, ⟨0, 0, 0⟩]⟩,
  ⟨fmtYUYV, fmtYUYV, 1, [⟨16, 1, 1⟩, ⟨0, 0, 0⟩, ⟨0, 0, 0⟩]⟩,
  ⟨fmtYVYU, fmtYVYU, 1, [⟨16, 1, 1⟩, ⟨0, 0, 0⟩, ⟨0, 0, 0⟩]⟩,
  ⟨fmtNV12, fmtNV12, 2, [⟨8, 1, 1⟩, ⟨16, 2, 2⟩, ⟨0, 0, 0⟩]⟩,
  ⟨fmtNV21, fmtNV21, 2, [⟨8, 1, 1⟩, ⟨16, 2, 2⟩, ⟨0, 0, 0⟩]⟩,
  ⟨fmtNV16, fmtNV16, 2, [⟨8, 1, 1⟩, ⟨16, 2, 1⟩, ⟨0, 0, 0⟩]⟩,
  ⟨fmtNV61, fmtNV61, 2, [⟨8, 1, 1⟩, ⟨16, 2, 1⟩, ⟨0, 0, 0⟩]⟩,
  ⟨fmtNV24, fmtNV24, 2, [⟨8, 1, 1⟩, ⟨16, 1, 1⟩, ⟨0, 0, 0⟩]⟩,
  ⟨fmtNV42, fmtNV42, 2, [⟨8, 1, 1⟩, ⟨16, 1, 1⟩, ⟨0, 0, 0⟩]⟩,
  ⟨fmtYUV420, pixFmtYUV420, 3, [⟨8, 1, 1⟩, ⟨8, 2, 2⟩, ⟨8, 2, 2⟩]⟩,
  ⟨fmtYUV422, pixFmtYUV422P, 3, [⟨8, 1, 1⟩, ⟨8, 2, 1⟩, ⟨8, 2, 1⟩]⟩,
  ⟨fmtMJPEG, pixFmtMJPEG, 1, [⟨16, 1, 1⟩, ⟨0, 0, 0⟩, ⟨0, 0, 0⟩]⟩]

/-- `V4L2CameraProxy::bplMultiplier`: bytes-per-line multiplier of a V4L2
format, 0 if the format is not in the table. -/
def bplMultiplier (format : Nat) : Nat :=
  match pixelFormatInfo.find? (fun i => i.v4l2Format = format) with
  | none => 0
  | some i => i.planes.headI.bitsPerPixel / 8

/-- `V4L2CameraProxy::imageSize`: frame size in bytes of a V4L2 format at a
given width and height, 0 if the format is not in the table. -/
def imageSize (format width height : Nat) : Nat :=
  match pixelFormatInfo.find? (fun i => i.v4l2Format = format) with
  | none => 0
  | some i =>
      width * height *
        ((i.planes.take i.numPlanes).foldl
          (fun acc p => acc + p.bitsPerPixel / p.hSubSampling / p.vSubSampling) 0) / 8

/-- `V4L2CameraProxy::v4l2ToDrm`: map a V4L2 format code to the libcamera
pixel format, or the invalid `PixelFormat()` (numeric value 0) if absent. -/
def v4l2ToDrm (format : Nat) : Nat :=
  match pixelFormatInfo.find? (fun i => i.v4l2Format = format) with
  | none => 0
  | some i => i.format

/-- `V4L2CameraProxy::drmToV4L2`: map a libcamera pixel format to its V4L2
code, or the format value itself if absent from the table. -/
def drmToV4L2 (format : Nat) : Nat :=
  match pixelFormatInfo.find? (fun i => i.format = format) with
  | none => format
  | some i => i.v4l2Format

/-! ### Stream configuration (libcamera StreamConfiguration boundary) -/

/-- libcamera `Size`. -/
structure SizeM where
  width : Nat
  height : Nat
deriving DecidableEq, Repr, Inhabited

/-- The backend's advertised capability table (`StreamFormats`): the list of
supported pixel formats and, per format, the list of supported sizes. -/
structure StreamFormatsM where
  pixelformats : List Nat
  sizeTable : List (Nat × List SizeM)
deriving DecidableEq, Repr, Inhabited

/-- `StreamFormats::sizes(format)`: the advertised size list of a format
(empty when the format has no entry). -/
def StreamFormatsM.sizes (f : StreamFormatsM) (format : Nat) : List SizeM :=
  (f.sizeTable.lookup format).getD []

/-- libcamera `StreamConfiguration` as used by the proxy. -/
structure StreamConfigM where
  formats : StreamFormatsM
  pixelFormat : Nat
  size : SizeM
  bufferCount : Nat
deriving DecidableEq, Repr, Inhabited

/-! ### v4l2_pix_format -/

/-- The fields of `struct v4l2_pix_format` that the proxy reads or writes.
ABI constants: V4L2_FIELD_NONE = 1, V4L2_COLORSPACE_SRGB = 8,
V4L2_PIX_FMT_PRIV_MAGIC = 0xfeedcafe, and the DEFAULT ycbcr encoding,
quantization and transfer function are all 0. -/
structure V4l2PixFormat where
  width : Nat
  height : Nat
  pixelformat : Nat
  fieldV : Nat
  bytesperline : Nat
  sizeimage : Nat
  colorspace : Nat
  priv : Nat
  ycbcrEnc : Nat
  quantization : Nat
  xferFunc : Nat
deriving DecidableEq, Repr, Inhabited

/-- `V4L2CameraProxy::setFmtFromConfig`: the pix format derived from a
stream configuration. -/
def setFmtFromConfig (sc : StreamConfigM) : V4l2PixFormat :=
  { width := sc.size.width
    height := sc.size.height
    pixelformat := drmToV4L2 sc.pixelFormat
    fieldV := 1
    bytesperline := bplMultiplier (drmToV4L2 sc.pixelFormat) * sc.size.width
    sizeimage := imageSize (drmToV4L2 sc.pixelFormat) sc.size.width sc.size.height
    colorspace := 8
    priv := 0xfeedcafe
    ycbcrEnc := 0
    quantization := 0
    xferFunc := 0 }

/-- `V4L2CameraProxy::calculateSizeImage`. -/
def calculateSizeImage (sc : StreamConfigM) : Nat :=
  imageSize (drmToV4L2 sc.pixelFormat) sc.size.width sc.size.height

/-! ### Format negotiation (`V4L2CameraProxy::tryFormat`) -/

/-- The encoding negotiated by `tryFormat`: the requested encoding mapped to
a libcamera format, or the first advertised encoding when unsupported. -/
def negotiatedFormat (sc : StreamConfigM) (pix : V4l2PixFormat) : Nat :=
  if v4l2ToDrm pix.pixelformat ∈ sc.formats.pixelformats then
    v4l2ToDrm pix.pixelformat
  else sc.formats.pixelformats.headI

/-- The size negotiated by `tryFormat`: the requested size, or the first
advertised size of the negotiated encoding when unsupported. -/
def negotiatedSize (sc : StreamConfigM) (pix : V4l2PixFormat) : SizeM :=
  if (⟨pix.width, pix.height⟩ : SizeM) ∈ sc.formats.sizes (negotiatedFormat sc pix) then
    ⟨pix.width, pix.height⟩
  else (sc.formats.sizes (negotiatedFormat sc pix)).headI

/-- `V4L2CameraProxy::tryFormat`: negotiate the requested pix format against
the backend's advertised table and recompute every derived field. -/
def tryFormat (sc : StreamConfigM) (pix : V4l2PixFormat) : V4l2PixFormat :=
  { width := (negotiatedSize sc pix).width
    height := (negotiatedSize sc pix).height
    pixelformat := drmToV4L2 (negotiatedFormat sc pix)
    fieldV := 1
    bytesperline := bplMultiplier (drmToV4L2 (negotiatedFormat sc pix)) *
      (negotiatedSize sc pix).width
    sizeimage := imageSize (drmToV4L2 (negotiatedFormat sc pix))
      (negotiatedSize sc pix).width (negotiatedSize sc pix).height
    colorspace := 8
    priv := 0xfeedcafe
    ycbcrEnc := 0
    quantization := 0
    xferFunc := 0 }

/-! ### Buffers, handles, completions and the device state -/

/-- The fields of `struct v4l2_buffer` that the proxy reads or writes.  The
flag word is modelled one Boolean per flag bit used by this code
(V4L2_BUF_FLAG_QUEUED, DONE, ERROR, MAPPED, TIMESTAMP_MONOTONIC).  ABI
constants: V4L2_BUF_TYPE_VIDEO_CAPTURE = 1, V4L2_MEMORY_MMAP = 1,
V4L2_FIELD_NONE = 1. -/
structure V4l2BufferM where
  index : Nat
  bufType : Nat
  memory : Nat
  length : Nat
  offset : Nat
  bytesused : Nat
  sequence : Nat
  tvSec : Nat
  tvUsec : Nat
  bufField : Nat
  queued : Bool
  done : Bool
  errorFlag : Bool
  mapped : Bool
  monotonic : Bool
deriving DecidableEq, Repr, Inhabited

/-- A zero-initialised `struct v4l2_buffer` (`= {}` in the source). -/
def emptyBuf : V4l2BufferM :=
  ⟨0, 0, 0, 0, 0, 0, 0, 0, 0, 0, false, false, false, false, false⟩

/-- One open handle (`V4L2CameraFile`): its identity, arbitration priority
(enum v4l2_priority: UNSET = 0, BACKGROUND = 1, INTERACTIVE = 2,
RECORD = 3) and non-blocking flag. -/
structure V4l2CameraFileM where
  id : Nat
  priority : Nat
  nonBlocking : Bool
deriving DecidableEq, Repr, Inhabited

/-- libcamera `FrameMetadata::Status`. -/
inductive FrameStatus where
  | success
  | error
  | cancelled
deriving DecidableEq, Repr, Inhabited

/-- One completed-buffer record delivered by the backend
(`V4L2Camera::Buffer`): the buffer index and the completion metadata
(bytes used, timestamp in nanoseconds, sequence number, outcome). -/
structure CompletionM where
  index : Nat
  bytesused : Nat
  timestamp : Nat
  sequence : Nat
  status : FrameStatus
deriving DecidableEq, Repr, Inhabited

/-- The shared per-device state of `V4L2CameraProxy`, together with the
observable state of the backend camera wrapper.

Proxy members: `bufferCount_`, `currentBuf_`, `sizeimage_`, `buffers_`,
`curV4L2Format_` (its pix part), `streamConfig_`, `owner_` (by handle id),
`files_`, `mmaps_` (virtual address to buffer index).

Backend members (V4L2Camera, whose implementation is not under src/):
`running` models `isRunning()`; `pending` models the queue drained by
`completedBuffers()`; `bufferAvail` models the count behind
`waitForBufferAvailable()` / `isBufferAvailable()`. -/
structure ProxyState where
  bufferCount : Nat
  currentBuf : Nat
  sizeimage : Nat
  buffers : List V4l2BufferM
  curV4L2Format : V4l2PixFormat
  streamConfig : StreamConfigM
  owner : Option Nat
  files : List V4l2CameraFileM
  mmaps : List (Nat × Nat)
  running : Bool
  pending : List CompletionM
  bufferAvail : Nat
deriving DecidableEq, Repr, Inhabited

/-- Modelled from the spec: the backend delivers buffer completions
asynchronously; each completion callback appends one completed-buffer
record and signals one unit of buffer availability (V4L2Camera's
completion path, whose implementation is not under src/). -/
def completionArrives (st : ProxyState) (c : CompletionM) : ProxyState :=
  { st with pending := st.pending ++ [c], bufferAvail := st.bufferAvail + 1 }

/-! ### Proxy helpers -/

/-- `V4L2CameraProxy::validateBufferType` (type must be
V4L2_BUF_TYPE_VIDEO_CAPTURE = 1). -/
def validateBufferType (t : Nat) : Bool := t = 1

/-- `V4L2CameraProxy::validateMemoryType` (memory must be
V4L2_MEMORY_MMAP = 1). -/
def validateMemoryType (m : Nat) : Bool := m = 1

/-- `V4L2CameraProxy::maxPriority`: the maximum priority among all open
handles, V4L2_PRIORITY_UNSET (= 0) when none is open. -/
def maxPriority (st : ProxyState) : Nat :=
  st.files.foldl (fun m f => max m f.priority) 0

/-- `V4L2CameraProxy::hasOwnership`. -/
def hasOwnership (st : ProxyState) (f : V4l2CameraFileM) : Prop :=
  st.owner = some f.id

instance (st : ProxyState) (f : V4l2CameraFileM) : Decidable (hasOwnership st f) := by
  unfold hasOwnership; infer_instance

/-- `V4L2CameraProxy::acquire`: take exclusive ownership; succeeds when the
caller already owns the device or nobody does, fails EBUSY otherwise. -/
def acquire (st : ProxyState) (f : V4l2CameraFileM) : Except Nat Unit × ProxyState :=
  if st.owner = some f.id then (Except.ok (), st)
  else match st.owner with
    | some _ => (Except.error EBUSY, st)
    | none => (Except.ok (), { st with owner := some f.id })

/-- `V4L2CameraProxy::release`: drop ownership when the caller holds it. -/
def release (st : ProxyState) (f : V4l2CameraFileM) : ProxyState :=
  if st.owner = some f.id then { st with owner := none } else st

/-- `V4L2CameraProxy::freeBuffers` (the private helper): free the backend
buffers, clear the slot table and reset the count. -/
def freeBuffersP (st : ProxyState) : ProxyState :=
  { st with buffers := [], bufferCount := 0 }

/-- The per-completion body of `V4L2CameraProxy::updateBuffers`: copy the
completion metadata into the matching slot and mark it done (success) or
error.  On success the code stores `tv_sec = timestamp / 1000000000` and
`tv_usec = timestamp % 1000000`.  A completion whose index is out of range
of the slot table is ignored (the C++ indexing assumes it in range). -/
def applyCompletion (bufs : List V4l2BufferM) (c : CompletionM) : List V4l2BufferM :=
  if c.index < bufs.length then
    let b := bufs.getD c.index emptyBuf
    match c.status with
    | FrameStatus.success =>
        bufs.set c.index
          { b with bytesused := c.bytesused, bufField := 1,
                   tvSec := c.timestamp / 1000000000,
                   tvUsec := c.timestamp % 1000000,
                   sequence := c.sequence, done := true }
    | FrameStatus.error => bufs.set c.index { b with errorFlag := true }
    | FrameStatus.cancelled => bufs
  else bufs

/-- `V4L2CameraProxy::updateBuffers`: drain every completion the backend
has ready into the slot table. -/
def updateBuffers (st : ProxyState) : ProxyState :=
  { st with buffers := st.pending.foldl applyCompletion st.buffers, pending := [] }

/-! ### The ioctl handlers -/

/-- `V4L2CameraProxy::vidioc_try_fmt`. -/
def vidioc_try_fmt (st : ProxyState) (bufType : Nat) (arg : V4l2PixFormat) :
    Except Nat V4l2PixFormat × ProxyState :=
  if ¬validateBufferType bufType then (Except.error EINVAL, st)
  else (Except.ok (tryFormat st.streamConfig arg), st)

/-- `V4L2CameraProxy::vidioc_s_fmt`.  `cfg` is the oracle for the backend
`configure` call: `none` when it fails, `some sc` the stream configuration
it negotiated and wrote back. -/
def vidioc_s_fmt (st : ProxyState) (f : V4l2CameraFileM) (bufType : Nat)
    (arg : V4l2PixFormat) (cfg : Option StreamConfigM) :
    Except Nat V4l2PixFormat × ProxyState :=
  if ¬validateBufferType bufType then (Except.error EINVAL, st)
  else if f.priority < maxPriority st then (Except.error EBUSY, st)
  else match acquire st f with
    | (Except.error e, st1) => (Except.error e, st1)
    | (Except.ok _, st1) =>
        let arg1 := tryFormat st1.streamConfig arg
        match cfg with
        | none => (Except.error EINVAL, st1)
        | some sc =>
            let st2 := { st1 with streamConfig := sc }
            if calculateSizeImage sc = 0 then (Except.error EINVAL, st2)
            else (Except.ok arg1,
              { st2 with sizeimage := calculateSizeImage sc,
                         curV4L2Format := setFmtFromConfig sc })

/-- `V4L2CameraProxy::vidioc_s_priority` (the requested priority must not
exceed V4L2_PRIORITY_RECORD = 3). -/
def vidioc_s_priority (st : ProxyState) (f : V4l2CameraFileM) (arg : Nat) :
    Except Nat Unit × ProxyState :=
  if 3 < arg then (Except.error EINVAL, st)
  else if f.priority < maxPriority st then (Except.error EBUSY, st)
  else
    let upd := fun (g : V4l2CameraFileM) =>
      if g.id = f.id then { g with priority := arg } else g
    (Except.ok (), { st with files := st.files.map upd })

/-- `V4L2CameraProxy::vidioc_reqbufs`.  `cfg` is the oracle for the backend
`configure` call and `allocRet` for `allocBuffers` (the error value is the
positive errno of the backend's negative return). -/
def vidioc_reqbufs (st : ProxyState) (f : V4l2CameraFileM)
    (bufType memory count : Nat) (cfg : Option StreamConfigM)
    (allocRet : Except Nat Unit) : Except Nat Nat × ProxyState :=
  if ¬(validateBufferType bufType ∧ validateMemoryType memory) then
    (Except.error EINVAL, st)
  else if f.priority < maxPriority st then (Except.error EBUSY, st)
  else if ¬hasOwnership st f ∧ st.owner.isSome then (Except.error EBUSY, st)
  else if count = 0 then
    if st.mmaps ≠ [] then (Except.error EBUSY, st)
    else if st.running then (Except.error EBUSY, st)
    else (Except.ok 0, release (freeBuffersP st) f)
  else
    let st1 := if 0 < st.bufferCount then freeBuffersP st else st
    match cfg with
    | none => (Except.error EINVAL, st1)
    | some sc =>
        let st2 := { st1 with streamConfig := sc,
                              sizeimage := calculateSizeImage sc,
                              curV4L2Format := setFmtFromConfig sc }
        let granted := sc.bufferCount
        let st3 := { st2 with bufferCount := granted }
        match allocRet with
        | Except.error e => (Except.error e, st3)
        | Except.ok _ =>
            let bufs := (List.range granted).map (fun i =>
              { emptyBuf with bufType := 1,
                              length := st3.curV4L2Format.sizeimage,
                              memory := 1,
                              offset := i * st3.curV4L2Format.sizeimage,
                              index := i, monotonic := true })
            let st4 := { st3 with buffers := bufs }
            (Except.ok granted, (acquire st4 f).2)

/-- `V4L2CameraProxy::vidioc_querybuf`. -/
def vidioc_querybuf (st : ProxyState) (bufType index : Nat) :
    Except Nat V4l2BufferM × ProxyState :=
  if st.bufferCount ≤ index then (Except.error EINVAL, st)
  else if ¬validateBufferType bufType ∨ st.bufferCount ≤ index then
    (Except.error EINVAL, st)
  else
    let st1 := updateBuffers st
    (Except.ok (st1.buffers.getD index emptyBuf), st1)

/-- `V4L2CameraProxy::vidioc_qbuf`.  `qret` is the oracle for the backend
`qbuf` submission. -/
def vidioc_qbuf (st : ProxyState) (f : V4l2CameraFileM)
    (bufType memory index : Nat) (qret : Except Nat Unit) :
    Except Nat Unit × ProxyState :=
  if st.bufferCount ≤ index then (Except.error EINVAL, st)
  else if (st.buffers.getD index emptyBuf).queued then (Except.error EINVAL, st)
  else if ¬hasOwnership st f then (Except.error EBUSY, st)
  else if ¬validateBufferType bufType ∨ ¬validateMemoryType memory ∨
      st.bufferCount ≤ index then (Except.error EINVAL, st)
  else match qret with
    | Except.error e => (Except.error e, st)
    | Except.ok _ =>
        let b1 := { st.buffers.getD index emptyBuf with queued := true }
        (Except.ok (), { st with buffers := st.buffers.set index b1 })

/-- The outcome of a dequeue: success, an errno, or suspension of the
calling context in the blocking wait. -/
inductive DqOutcome where
  | ok (buf : V4l2BufferM)
  | err (e : Nat)
  | blocked
deriving DecidableEq, Repr, Inhabited

/-- The tail of `vidioc_dqbuf` past the wait: re-check the running flag,
drain completions, return the slot at the round-robin cursor with its
QUEUED and DONE flags cleared and its length set to the frame size, and
advance the cursor modulo the buffer count.  `availAfter` is the
buffer-available count left after the wait path taken. -/
def dqbufComplete (st : ProxyState) (availAfter : Nat) : DqOutcome × ProxyState :=
  if st.running = false then (DqOutcome.err EINVAL, st)
  else
    let stU := updateBuffers st
    let b := stU.buffers.getD st.currentBuf emptyBuf
    let b1 := { b with queued := false, done := false, length := st.sizeimage }
    (DqOutcome.ok b1,
      { stU with buffers := stU.buffers.set st.currentBuf b1,
                 currentBuf := (st.currentBuf + 1) % st.bufferCount,
                 bufferAvail := availAfter })

/-- `V4L2CameraProxy::vidioc_dqbuf`.  The blocking wait is modelled from
the spec: `waitForBufferAvailable()` suspends while no completion is
pending (outcome `blocked`) and consumes one unit of availability when it
returns; `isBufferAvailable()` is the non-consuming query used in
non-blocking mode. -/
def vidioc_dqbuf (st : ProxyState) (f : V4l2CameraFileM)
    (bufType memory index : Nat) : DqOutcome × ProxyState :=
  if st.bufferCount ≤ index then (DqOutcome.err EINVAL, st)
  else if ¬hasOwnership st f then (DqOutcome.err EBUSY, st)
  else if st.running = false then (DqOutcome.err EINVAL, st)
  else if ¬(validateBufferType bufType ∧ validateMemoryType memory) then
    (DqOutcome.err EINVAL, st)
  else if f.nonBlocking then
    if st.bufferAvail = 0 then (DqOutcome.err EAGAIN, st)
    else dqbufComplete st st.bufferAvail
  else
    if st.bufferAvail = 0 then (DqOutcome.blocked, st)
    else dqbufComplete st (st.bufferAvail - 1)

/-- `V4L2CameraProxy::vidioc_streamon`.  `sret` is the oracle for the
backend `streamOn` call. -/
def vidioc_streamon (st : ProxyState) (f : V4l2CameraFileM) (bufType : Nat)
    (sret : Except Nat Unit) : Except Nat Unit × ProxyState :=
  if st.bufferCount = 0 then (Except.error EINVAL, st)
  else if ¬validateBufferType bufType then (Except.error EINVAL, st)
  else if f.priority < maxPriority st then (Except.error EBUSY, st)
  else if ¬hasOwnership st f then (Except.error EBUSY, st)
  else if st.running then (Except.ok (), st)
  else
    let st1 := { st with currentBuf := 0 }
    match sret with
    | Except.error e => (Except.error e, st1)
    | Except.ok _ => (Except.ok (), { st1 with running := true })

/-- `V4L2CameraProxy::vidioc_streamoff`.  The backend `streamOff` halts
capture (modelled from the spec by clearing the running flag); the proxy
then clears the QUEUED and DONE flags on every slot and returns the
backend's result `sret`. -/
def vidioc_streamoff (st : ProxyState) (f : V4l2CameraFileM) (bufType : Nat)
    (sret : Except Nat Unit) : Except Nat Unit × ProxyState :=
  if ¬validateBufferType bufType then (Except.error EINVAL, st)
  else if f.priority < maxPriority st then (Except.error EBUSY, st)
  else if ¬hasOwnership st f ∧ st.owner.isSome then (Except.error EBUSY, st)
  else
    let st1 := { st with running := false,
                         buffers := st.buffers.map
                           (fun b => { b with queued := false, done := false }) }
    match sret with
    | Except.error e => (Except.error e, st1)
    | Except.ok _ => (Except.ok (), st1)

/-! ### The ioctl dispatcher's validation prefix -/

/-- The operation codes of `supportedIoctls_`. -/
inductive VidiocCmd where
  | querycap
  | enum_framesizes
  | enum_fmt
  | g_fmt
  | s_fmt
  | try_fmt
  | g_priority
  | s_priority
  | enuminput
  | g_input
  | s_input
  | reqbufs
  | querybuf
  | qbuf
  | dqbuf
  | streamon
  | streamoff
deriving DecidableEq, Repr

/-- An ioctl request number, abstracted to what the dispatcher inspects:
either one of the supported codes, or an unknown code with its _IOC_DIR
direction bits. -/
inductive IoctlReq where
  | cmd (c : VidiocCmd)
  | unknown (dirRead dirWrite : Bool)
deriving DecidableEq, Repr

/-- The _IOC_READ direction bit of a request number (from videodev2.h: the
supported VIDIOC codes are all _IOR or _IOWR except VIDIOC_S_PRIORITY,
VIDIOC_STREAMON and VIDIOC_STREAMOFF which are _IOW). -/
def reqDirRead : IoctlReq → Bool
  | IoctlReq.cmd VidiocCmd.s_priority => false
  | IoctlReq.cmd VidiocCmd.streamon => false
  | IoctlReq.cmd VidiocCmd.streamoff => false
  | IoctlReq.cmd _ => true
  | IoctlReq.unknown r _ => r

/-- The _IOC_WRITE direction bit of a request number (from videodev2.h:
VIDIOC_QUERYCAP, VIDIOC_G_PRIORITY and VIDIOC_G_INPUT are _IOR, every
other supported code takes input). -/
def reqDirWrite : IoctlReq → Bool
  | IoctlReq.cmd VidiocCmd.querycap => false
  | IoctlReq.cmd VidiocCmd.g_priority => false
  | IoctlReq.cmd VidiocCmd.g_input => false
  | IoctlReq.cmd _ => true
  | IoctlReq.unknown _ w => w

/-- Membership in `supportedIoctls_`. -/
def isSupported : IoctlReq → Bool
  | IoctlReq.cmd _ => true
  | IoctlReq.unknown _ _ => false

/-- The validation prefix of `V4L2CameraProxy::ioctl`: a null argument for
a request with the write direction fails EFAULT, then a request outside
the supported set fails ENOTTY, then a null argument for a request with
the read direction fails EFAULT; otherwise the request is dispatched
(`none`). -/
def ioctlCheck (req : IoctlReq) (argNull : Bool) : Option Nat :=
  if argNull ∧ reqDirWrite req then some EFAULT
  else if ¬isSupported req then some ENOTTY
  else if argNull ∧ reqDirRead req then some EFAULT
  else none

/-! ### Concrete fixtures used by witnesses and counterexamples -/

/-- A backend advertisement with one encoding (YUYV) and one size
(640 x 480, so the frame size is 614400 bytes). -/
def scYUYV : StreamConfigM :=
  ⟨⟨[fmtYUYV], [(fmtYUYV, [⟨640, 480⟩])]⟩, fmtYUYV, ⟨640, 480⟩, 4⟩

/-- The slot that `vidioc_reqbufs` builds at index `i` for frame size
`len`. -/
def allocSlot (i len : Nat) : V4l2BufferM :=
  { emptyBuf with bufType := 1, length := len, memory := 1,
                  offset := i * len, index := i, monotonic := true }

/-- A handle with RECORD priority, blocking mode. -/
def fileA : V4l2CameraFileM := ⟨1, 3, false⟩

/-- A handle with UNSET priority, blocking mode. -/
def fileP1 : V4l2CameraFileM := ⟨1, 0, false⟩

/-- A second handle with UNSET priority, blocking mode. -/
def fileP2 : V4l2CameraFileM := ⟨2, 0, false⟩

/-- A streaming device: two allocated buffers, stream running, owned by
`fileA`, no completion pending. -/
def stRun : ProxyState :=
  { bufferCount := 2, currentBuf := 0, sizeimage := 614400,
    buffers := [allocSlot 0 614400, allocSlot 1 614400],
    curV4L2Format := setFmtFromConfig scYUYV, streamConfig := scYUYV,
    owner := some 1, files := [fileA], mmaps := [], running := false,
    pending := [], bufferAvail := 0 }

/-- `stRun` with the stream actually running. -/
def stLive : ProxyState := { stRun with running := true }

/-- An idle device owned by handle 1 with two equal-priority handles open,
no buffers, no mappings, stream stopped. -/
def stC3 : ProxyState :=
  { bufferCount := 0, currentBuf := 0, sizeimage := 614400, buffers := [],
    curV4L2Format := setFmtFromConfig scYUYV, streamConfig := scYUYV,
    owner := some 1, files := [fileP1, fileP2], mmaps := [], running := false,
    pending := [], bufferAvail := 0 }

/-- An unowned idle device with no buffers. -/
def stC4 : ProxyState :=
  { bufferCount := 0, currentBuf := 0, sizeimage := 614400, buffers := [],
    curV4L2Format := setFmtFromConfig scYUYV, streamConfig := scYUYV,
    owner := none, files := [fileA], mmaps := [], running := false,
    pending := [], bufferAvail := 0 }

/-- `stC3` but owned by handle 2 (`fileP2`). -/
def stC3X : ProxyState := { stC3 with owner := some 2 }

/-- A requested pix format whose layout fields are junk the negotiation
must not copy. -/
def pixReq : V4l2PixFormat := ⟨640, 480, fmtYUYV, 0, 12345, 999, 3, 4, 5, 6, 7⟩

/-- A requested pix format with an unsupported encoding and size. -/
def pixBad : V4l2PixFormat := ⟨100, 100, 999, 0, 0, 0, 0, 0, 0, 0, 0⟩

/-- `pixBad` with different caller-supplied layout fields. -/
def pixBad2 : V4l2PixFormat :=
  { pixBad with bytesperline := 7777, sizeimage := 1, colorspace := 2 }

/-! ## Theorems -/

/-- Helper: the `headI` of a nonempty list is a member. -/
lemma headI_mem_self {α : Type} [Inhabited α] {l : List α} (h : l ≠ []) :
    l.headI ∈ l := by
  cases l with
  | nil => exact absurd rfl h
  | cons a t => exact List.mem_cons_self a t

/-- Helper: the encoding negotiated by `tryFormat` is always one the
backend advertises, provided the advertised list is nonempty. -/
lemma negotiatedFormat_mem (sc : StreamConfigM) (p : V4l2PixFormat)
    (h : sc.formats.pixelformats ≠ []) :
    negotiatedFormat sc p ∈ sc.formats.pixelformats := by
  unfold negotiatedFormat
  split
  · assumption
  · exact headI_mem_self h

/-- Helper: the size negotiated by `tryFormat` is always one the backend
advertises for the negotiated encoding, provided that size list is
nonempty. -/
lemma negotiatedSize_mem (sc : StreamConfigM) (p : V4l2PixFormat)
    (h : sc.formats.sizes (negotiatedFormat sc p) ≠ []) :
    negotiatedSize sc p ∈ sc.formats.sizes (negotiatedFormat sc p) := by
  unfold negotiatedSize
  split
  · assumption
  · exact headI_mem_self h

/-- Helper: requests that negotiate the same encoding and size produce the
same `tryFormat` output. -/
lemma tryFormat_congr (sc : StreamConfigM) {a b : V4l2PixFormat}
    (hf : negotiatedFormat sc a = negotiatedFormat sc b)
    (hs : negotiatedSize sc a = negotiatedSize sc b) :
    tryFormat sc a = tryFormat sc b := by
  unfold tryFormat
  rw [hf, hs]

/-- Helper: `tryFormat` is idempotent whenever the backend's advertised
encoding list is nonempty, every advertised encoding round-trips through
the static format table, and every advertised encoding has a nonempty
advertised size list. -/
lemma tryFormat_idem (sc : StreamConfigM) (p : V4l2PixFormat)
    (hne : sc.formats.pixelformats ≠ [])
    (hrt : ∀ g ∈ sc.formats.pixelformats, v4l2ToDrm (drmToV4L2 g) = g)
    (hsz : ∀ g ∈ sc.formats.pixelformats, sc.formats.sizes g ≠ []) :
    tryFormat sc (tryFormat sc p) = tryFormat sc p := by
  have hfmem : negotiatedFormat sc p ∈ sc.formats.pixelformats :=
    negotiatedFormat_mem sc p hne
  have hpf : (tryFormat sc p).pixelformat = drmToV4L2 (negotiatedFormat sc p) := rfl
  have hw : (tryFormat sc p).width = (negotiatedSize sc p).width := rfl
  have hh : (tryFormat sc p).height = (negotiatedSize sc p).height := rfl
  have hf2 : negotiatedFormat sc (tryFormat sc p) = negotiatedFormat sc p := by
    conv_lhs => unfold negotiatedFormat
    rw [hpf, hrt _ hfmem, if_pos hfmem]
  have hsmem : negotiatedSize sc p ∈ sc.formats.sizes (negotiatedFormat sc p) :=
    negotiatedSize_mem sc p (hsz _ hfmem)
  have hs2 : negotiatedSize sc (tryFormat sc p) = negotiatedSize sc p := by
    conv_lhs => unfold negotiatedSize
    rw [hf2, hw, hh]
    exact if_pos hsmem
  exact tryFormat_congr sc hf2 hs2

/-- Claim C5: for every requested format argument and every fixed device
state, `vidioc_try_fmt` mutates no device state, and the negotiation is
idempotent: applying it twice yields the same output as applying it once,
and a second call with the same input yields the same output again.
Hypotheses: the backend's advertised encoding list is nonempty, every
advertised encoding round-trips through the static format table, and
every advertised encoding has a nonempty advertised size list (without
nonemptiness the C++ indexes `[0]` of an empty vector). -/
theorem C5_try_format_pure_idempotent (st : ProxyState) (bufType : Nat)
    (arg : V4l2PixFormat)
    (hne : st.streamConfig.formats.pixelformats ≠ [])
    (hrt : ∀ g ∈ st.streamConfig.formats.pixelformats, v4l2ToDrm (drmToV4L2 g) = g)
    (hsz : ∀ g ∈ st.streamConfig.formats.pixelformats,
      st.streamConfig.formats.sizes g ≠ []) :
    (vidioc_try_fmt st bufType arg).2 = st ∧
    tryFormat st.streamConfig (tryFormat st.streamConfig arg) =
      tryFormat st.streamConfig arg ∧
    (validateBufferType bufType = true →
      (vidioc_try_fmt st bufType arg).1 =
        Except.ok (tryFormat st.streamConfig arg) ∧
      (vidioc_try_fmt (vidioc_try_fmt st bufType arg).2 bufType arg).1 =
        (vidioc_try_fmt st bufType arg).1) := by
  refine ⟨?_, tryFormat_idem st.streamConfig arg hne hrt hsz, ?_⟩
  · unfold vidioc_try_fmt
    split <;> rfl
  · intro hv
    unfold vidioc_try_fmt
    simp [hv]

/-- Claim C5 witness: the negotiation at a concrete device state and
request. -/
theorem C5_witness :
    (vidioc_try_fmt stLive 1 pixReq).2 = stLive ∧
    tryFormat stLive.streamConfig (tryFormat stLive.streamConfig pixReq) =
      tryFormat stLive.streamConfig pixReq ∧
    ((vidioc_try_fmt stLive 1 pixReq).1 =
        Except.ok (tryFormat stLive.streamConfig pixReq) ∧
      (vidioc_try_fmt (vidioc_try_fmt stLive 1 pixReq).2 1 pixReq).1 =
        (vidioc_try_fmt stLive 1 pixReq).1) := by
  have h := C5_try_format_pure_idempotent stLive 1 pixReq (by decide)
    (by decide) (by decide)
  exact ⟨h.1, h.2.1, h.2.2 (by decide)⟩

/-- Claim C6: the negotiation substitutes the first advertised encoding
when the requested one is unsupported, substitutes the first advertised
size when the requested size is not advertised for the negotiated
encoding, and always recomputes bytesperline, sizeimage and the
colour-space metadata from the static format table — never from the
caller's input (two requests differing only in those fields negotiate to
identical results). -/
theorem C6_negotiation_policy (sc : StreamConfigM) (p p2 : V4l2PixFormat) :
    (v4l2ToDrm p.pixelformat ∉ sc.formats.pixelformats →
      negotiatedFormat sc p = sc.formats.pixelformats.headI) ∧
    ((⟨p.width, p.height⟩ : SizeM) ∉ sc.formats.sizes (negotiatedFormat sc p) →
      negotiatedSize sc p = (sc.formats.sizes (negotiatedFormat sc p)).headI) ∧
    (tryFormat sc p).bytesperline =
      bplMultiplier (drmToV4L2 (negotiatedFormat sc p)) *
        (negotiatedSize sc p).width ∧
    (tryFormat sc p).sizeimage =
      imageSize (drmToV4L2 (negotiatedFormat sc p)) (negotiatedSize sc p).width
        (negotiatedSize sc p).height ∧
    (tryFormat sc p).colorspace = 8 ∧
    (tryFormat sc p).priv = 0xfeedcafe ∧
    (tryFormat sc p).ycbcrEnc = 0 ∧
    (tryFormat sc p).quantization = 0 ∧
    (tryFormat sc p).xferFunc = 0 ∧
    (p2.pixelformat = p.pixelformat → p2.width = p.width → p2.height = p.height →
      tryFormat sc p2 = tryFormat sc p) := by
  refine ⟨?_, ?_, rfl, rfl, rfl, rfl, rfl, rfl, rfl, ?_⟩
  · intro h
    unfold negotiatedFormat
    rw [if_neg h]
  · intro h
    unfold negotiatedSize
    rw [if_neg h]
  · intro h1 h2 h3
    have hf : negotiatedFormat sc p2 = negotiatedFormat sc p := by
      unfold negotiatedFormat
      rw [h1]
    have hs : negotiatedSize sc p2 = negotiatedSize sc p := by
      unfold negotiatedSize
      rw [hf, h2, h3]
    unfold tryFormat
    rw [hf, hs]

/-- Claim C6 witness: an unsupported encoding and size fall back to the
first advertised entries, and junk caller layout fields do not change the
negotiation. -/
theorem C6_witness :
    negotiatedFormat scYUYV pixBad = scYUYV.formats.pixelformats.headI ∧
    negotiatedSize scYUYV pixBad =
      (scYUYV.formats.sizes (negotiatedFormat scYUYV pixBad)).headI ∧
    tryFormat scYUYV pixBad2 = tryFormat scYUYV pixBad := by
  have h := C6_negotiation_policy scYUYV pixBad pixBad2
  exact ⟨h.1 (by decide), h.2.1 (by decide),
    h.2.2.2.2.2.2.2.2.2 (by decide) (by decide) (by decide)⟩

/-- Claim C7: raising a handle's priority fails EINVAL above RECORD,
fails EBUSY unless the caller's priority is already at least the maximum
among all open handles, and on success changes only the calling handle's
priority (every other handle is still present unchanged). -/
theorem C7_s_priority (st : ProxyState) (f : V4l2CameraFileM) (arg : Nat) :
    (3 < arg → vidioc_s_priority st f arg = (Except.error EINVAL, st)) ∧
    (arg ≤ 3 → f.priority < maxPriority st →
      vidioc_s_priority st f arg = (Except.error EBUSY, st)) ∧
    (arg ≤ 3 → maxPriority st ≤ f.priority →
      vidioc_s_priority st f arg =
        (Except.ok (), { st with files := st.files.map (fun g => if g.id = f.id then { g with priority := arg } else g) }) ∧
      ∀ g ∈ st.files, g.id ≠ f.id → g ∈ (vidioc_s_priority st f arg).2.files) := by
  refine ⟨?_, ?_, ?_⟩
  · intro h
    unfold vidioc_s_priority
    rw [if_pos h]
  · intro h1 h2
    unfold vidioc_s_priority
    rw [if_neg (by omega), if_pos h2]
  · intro h1 h2
    have heq : vidioc_s_priority st f arg =
        (Except.ok (), { st with files := st.files.map (fun g => if g.id = f.id then { g with priority := arg } else g) }) := by
      unfold vidioc_s_priority
      rw [if_neg (by omega), if_neg (by omega)]
    refine ⟨heq, ?_⟩
    intro g hg hne
    rw [heq]
    exact List.mem_map.mpr ⟨g, hg, by simp [hne]⟩

/-- Claim C7 witness: a handle at the maximum priority raises its priority
to RECORD, leaving the other handle untouched; a handle below the maximum
is refused EBUSY; a value above RECORD is refused EINVAL. -/
theorem C7_witness :
    vidioc_s_priority stC3 fileP1 3 =
      (Except.ok (), { stC3 with files := stC3.files.map (fun g => if g.id = fileP1.id then { g with priority := 3 } else g) }) ∧
    vidioc_s_priority stRun fileP2 2 = (Except.error EBUSY, stRun) ∧
    vidioc_s_priority stC3 fileP1 4 = (Except.error EINVAL, stC3) := by
  refine ⟨((C7_s_priority stC3 fileP1 3).2.2 (by decide) (by decide)).1, ?_, ?_⟩
  · exact (C7_s_priority stRun fileP2 2).2.1 (by decide) (by decide)
  · exact (C7_s_priority stC3 fileP1 4).1 (by decide)

/-- Claim C8: stopping the stream clears the QUEUED and DONE flags on
every slot regardless of each slot's prior state (and regardless of the
backend's stop result), and a dequeue issued immediately afterwards by the
owner with a valid index fails EINVAL — it does not block. -/
theorem C8_streamoff_then_dqbuf (st : ProxyState) (f : V4l2CameraFileM)
    (t t2 m2 i : Nat) (sret : Except Nat Unit)
    (hty : validateBufferType t = true)
    (hpr : maxPriority st ≤ f.priority)
    (hown : st.owner = some f.id)
    (hidx : i < st.bufferCount) :
    (∀ b ∈ (vidioc_streamoff st f t sret).2.buffers,
      b.queued = false ∧ b.done = false) ∧
    vidioc_dqbuf (vidioc_streamoff st f t sret).2 f t2 m2 i =
      (DqOutcome.err EINVAL, (vidioc_streamoff st f t sret).2) := by
  have h2 : (vidioc_streamoff st f t sret).2 =
      { st with running := false,
                buffers := st.buffers.map (fun b => { b with queued := false, done := false }) } := by
    unfold vidioc_streamoff
    rw [if_neg (by simp [hty]), if_neg (by omega),
      if_neg (by simp [hasOwnership, hown])]
    cases sret <;> rfl
  constructor
  · rw [h2]
    intro b hb
    rcases List.mem_map.mp hb with ⟨a, _, rfl⟩
    exact ⟨rfl, rfl⟩
  · rw [h2]
    unfold vidioc_dqbuf
    rw [if_neg (by simpa using Nat.not_le.mpr hidx),
      if_neg (by simp [hasOwnership, hown]), if_pos rfl]

/-- Claim C8 witness: a concrete stop on the running two-buffer device
clears the flags everywhere and the immediate dequeue fails EINVAL. -/
theorem C8_witness :
    (∀ b ∈ (vidioc_streamoff stLive fileA 1 (Except.ok ())).2.buffers,
      b.queued = false ∧ b.done = false) ∧
    vidioc_dqbuf (vidioc_streamoff stLive fileA 1 (Except.ok ())).2
        fileA 1 1 0 =
      (DqOutcome.err EINVAL, (vidioc_streamoff stLive fileA 1
        (Except.ok ())).2) := by
  have h := C8_streamoff_then_dqbuf stLive fileA 1 1 1 0 (Except.ok ())
    (by decide) (by decide) rfl (by decide)
  exact ⟨h.1, h.2⟩

/-- Claim C1 counterexample: on a running two-buffer device, queue only
buffer 1 and let its completion arrive; the dequeue then succeeds but
returns slot 0 — the slot at the cursor — which is neither queued nor
done, so the dequeued buffer need not be in done state and the dequeue
order (0) differs from the submission order (1). -/
theorem C1_counterexample :
    (vidioc_qbuf stLive fileA 1 1 1 (Except.ok ())).1 = Except.ok () ∧
    ((updateBuffers (completionArrives (vidioc_qbuf stLive fileA 1 1 1
        (Except.ok ())).2 ⟨1, 614400, 0, 0, FrameStatus.success⟩)).buffers.getD 0
      emptyBuf).done = false ∧
    (vidioc_dqbuf (completionArrives (vidioc_qbuf stLive fileA 1 1 1
        (Except.ok ())).2 ⟨1, 614400, 0, 0, FrameStatus.success⟩) fileA 1 1 0).1 =
      DqOutcome.ok (allocSlot 0 614400) ∧
    (allocSlot 0 614400).index = 0 ∧
    (allocSlot 0 614400).done = false := by decide

/-- Claim C1 as amended: on a running device with the caller owning the
device, a valid index argument and at least one completion signalled, a
dequeue succeeds and returns the slot at the round-robin cursor —
regardless of whether that slot is in done state — with its QUEUED and
DONE flags cleared and its length set to the frame size, and advances the
cursor modulo the buffer count.  Hence the dequeue order is the cyclic
slot-index order from the cursor, which coincides with the submission
order only when buffers are queued in that cyclic order. -/
theorem C1_dqbuf_cursor (st : ProxyState) (f : V4l2CameraFileM) (t m i : Nat)
    (hown : st.owner = some f.id) (hrun : st.running = true)
    (ht : validateBufferType t = true) (hm : validateMemoryType m = true)
    (hidx : i < st.bufferCount) (hav : 0 < st.bufferAvail) :
    vidioc_dqbuf st f t m i =
      (DqOutcome.ok { (updateBuffers st).buffers.getD st.currentBuf emptyBuf with
          queued := false, done := false, length := st.sizeimage },
        { updateBuffers st with
            buffers := (updateBuffers st).buffers.set st.currentBuf
              { (updateBuffers st).buffers.getD st.currentBuf emptyBuf with
                  queued := false, done := false, length := st.sizeimage },
            currentBuf := (st.currentBuf + 1) % st.bufferCount,
            bufferAvail := if f.nonBlocking then st.bufferAvail
              else st.bufferAvail - 1 }) := by
  have h5 : st.bufferAvail ≠ 0 := by omega
  unfold vidioc_dqbuf
  rw [if_neg (Nat.not_le.mpr hidx), if_neg (by simp [hasOwnership, hown]),
    if_neg (by simp [hrun]), if_neg (by simp [ht, hm])]
  cases hnb : f.nonBlocking with
  | true =>
      rw [if_pos rfl, if_neg h5]
      unfold dqbufComplete
      rw [if_neg (by simp [hrun])]
      simp
  | false =>
      rw [if_neg (by simp), if_neg h5]
      unfold dqbufComplete
      rw [if_neg (by simp [hrun])]
      simp

/-- Claim C1 witness: a concrete blocking dequeue on a running device with
one availability unit returns the slot at cursor 0 and advances the cursor
to 1. -/
theorem C1_witness :
    vidioc_dqbuf { stLive with bufferAvail := 1 } fileA 1 1 0 =
      (DqOutcome.ok (allocSlot 0 614400),
        { stLive with currentBuf := 1, bufferAvail := 0 }) := by
  have h := C1_dqbuf_cursor { stLive with bufferAvail := 1 } fileA 1 1 0
    rfl rfl (by decide) (by decide) (by decide) (by decide)
  exact h.trans (by decide)

/-- Helper: `acquire` fails EBUSY without touching state when another
handle owns the device. -/
lemma acquire_conflict (st : ProxyState) (f : V4l2CameraFileM)
    (h1 : st.owner ≠ none) (h2 : st.owner ≠ some f.id) :
    acquire st f = (Except.error EBUSY, st) := by
  unfold acquire
  rw [if_neg h2]
  cases ho : st.owner with
  | none => exact absurd ho h1
  | some x => rfl

/-- Claim C2 counterexample: on a device with two allocated buffers, a
reqbufs call for four buffers whose backend configure step fails returns
an error yet has already freed the buffer table — the failed operation
does not leave state unchanged. -/
theorem C2_counterexample :
    (vidioc_reqbufs stRun fileA 1 1 4 none (Except.ok ())).1 =
      Except.error EINVAL ∧
    (vidioc_reqbufs stRun fileA 1 1 4 none (Except.ok ())).2.buffers = [] ∧
    stRun.buffers ≠ [] ∧
    (vidioc_reqbufs stRun fileA 1 1 4 none (Except.ok ())).2 ≠ stRun := by decide

/-- Claim C2 as amended: a failure detected by a handler's precondition
checks (argument validation, priority, ownership/busy checks) leaves the
device state unchanged — for try_fmt always, for s_fmt and reqbufs on all
their precondition failures, and for qbuf and dqbuf on every error — but
an error reported by the backend mid-operation may leave state partially
mutated (as the counterexample shows for reqbufs). -/
theorem C2_precondition_failure_unchanged :
    (∀ st t arg, (vidioc_try_fmt st t arg).2 = st) ∧
    (∀ st f t arg cfg,
      (validateBufferType t = false ∨ f.priority < maxPriority st ∨
        (st.owner ≠ none ∧ st.owner ≠ some f.id)) →
      (vidioc_s_fmt st f t arg cfg).2 = st ∧
        ∃ e, (vidioc_s_fmt st f t arg cfg).1 = Except.error e) ∧
    (∀ st f t m cnt cfg al,
      (¬(validateBufferType t = true ∧ validateMemoryType m = true) ∨
        f.priority < maxPriority st ∨
        (st.owner ≠ none ∧ st.owner ≠ some f.id) ∨
        (cnt = 0 ∧ (st.mmaps ≠ [] ∨ st.running = true))) →
      (vidioc_reqbufs st f t m cnt cfg al).2 = st ∧
        ∃ e, (vidioc_reqbufs st f t m cnt cfg al).1 = Except.error e) ∧
    (∀ st f t m i q e, (vidioc_qbuf st f t m i q).1 = Except.error e →
      (vidioc_qbuf st f t m i q).2 = st) ∧
    (∀ st f t m i e, (vidioc_dqbuf st f t m i).1 = DqOutcome.err e →
      (vidioc_dqbuf st f t m i).2 = st) := by
  refine ⟨?_, ?_, ?_, ?_, ?_⟩
  · intro st t arg
    unfold vidioc_try_fmt
    split <;> rfl
  · intro st f t arg cfg h
    unfold vidioc_s_fmt
    by_cases hv : validateBufferType t = true
    · by_cases hp : f.priority < maxPriority st
      · rw [if_neg (by simp [hv]), if_pos hp]
        exact ⟨rfl, EBUSY, rfl⟩
      · have hc : st.owner ≠ none ∧ st.owner ≠ some f.id := by
          rcases h with h | h | h
          · rw [h] at hv
            exact absurd hv Bool.false_ne_true
          · exact absurd h hp
          · exact h
        rw [if_neg (by simp [hv]), if_neg hp, acquire_conflict st f hc.1 hc.2]
        exact ⟨rfl, EBUSY, rfl⟩
    · rw [if_pos hv]
      exact ⟨rfl, EINVAL, rfl⟩
  · intro st f t m cnt cfg al h
    unfold vidioc_reqbufs
    by_cases hv : (validateBufferType t = true ∧ validateMemoryType m = true)
    · rw [if_neg (not_not_intro hv)]
      by_cases hp : f.priority < maxPriority st
      · rw [if_pos hp]
        exact ⟨rfl, EBUSY, rfl⟩
      · rw [if_neg hp]
        by_cases ho : (¬hasOwnership st f ∧ st.owner.isSome = true)
        · rw [if_pos ho]
          exact ⟨rfl, EBUSY, rfl⟩
        · rw [if_neg ho]
          have hc : cnt = 0 ∧ (st.mmaps ≠ [] ∨ st.running = true) := by
            rcases h with h | h | h | h
            · exact absurd hv h
            · exact absurd h hp
            · exact absurd ⟨h.2, Option.ne_none_iff_isSome.mp h.1⟩ ho
            · exact h
          rcases hc with ⟨hcnt, hrest⟩
          subst hcnt
          rw [if_pos rfl]
          by_cases hmp : st.mmaps = []
          · have hr : st.running = true := by
              rcases hrest with h | h
              · exact absurd hmp h
              · exact h
            rw [if_neg (not_not_intro hmp), if_pos hr]
            exact ⟨rfl, EBUSY, rfl⟩
          · rw [if_pos hmp]
            exact ⟨rfl, EBUSY, rfl⟩
    · rw [if_pos hv]
      exact ⟨rfl, EINVAL, rfl⟩
  · intro st f t m i q e h
    unfold vidioc_qbuf at h ⊢
    split_ifs at h ⊢ <;> try rfl
    cases q with
    | error e2 => rfl
    | ok u => simp at h
  · intro st f t m i e h
    unfold vidioc_dqbuf dqbufComplete at h ⊢
    split_ifs at h ⊢ <;> rfl

/-- Claim C2 witness: concrete precondition failures that leave state
unchanged for each handler. -/
theorem C2_witness :
    (vidioc_try_fmt stLive 1 pixReq).2 = stLive ∧
    ((vidioc_s_fmt stC3 fileP2 1 pixReq (some scYUYV)).2 = stC3 ∧
      ∃ e, (vidioc_s_fmt stC3 fileP2 1 pixReq (some scYUYV)).1 =
        Except.error e) ∧
    ((vidioc_reqbufs stC3 fileP2 1 1 4 (some scYUYV) (Except.ok ())).2 = stC3 ∧
      ∃ e, (vidioc_reqbufs stC3 fileP2 1 1 4 (some scYUYV)
        (Except.ok ())).1 = Except.error e) ∧
    (vidioc_qbuf stLive fileA 1 1 5 (Except.ok ())).2 = stLive ∧
    (vidioc_dqbuf stRun fileA 1 1 0).2 = stRun := by
  refine ⟨C2_precondition_failure_unchanged.1 stLive 1 pixReq,
    C2_precondition_failure_unchanged.2.1 stC3 fileP2 1 pixReq (some scYUYV)
      (Or.inr (Or.inr ⟨by decide, by decide⟩)),
    C2_precondition_failure_unchanged.2.2.1 stC3 fileP2 1 1 4 (some scYUYV)
      (Except.ok ()) (Or.inr (Or.inr (Or.inl ⟨by decide, by decide⟩))),
    C2_precondition_failure_unchanged.2.2.2.1 stLive fileA 1 1 5
      (Except.ok ()) EINVAL (by decide),
    C2_precondition_failure_unchanged.2.2.2.2 stRun fileA 1 1 0 EINVAL
      (by decide)⟩

/-- Claim C3 counterexample: a reqbufs call with count 0 from a non-owning
handle fails EBUSY although no buffer is memory-mapped and the stream is
not running (another handle owns the device), so success is not equivalent
to "no mapping and not running" and a non-owning handle is not always
allowed to free. -/
theorem C3_counterexample :
    stC3.mmaps = [] ∧ stC3.running = false ∧
    (vidioc_reqbufs stC3 fileP2 1 1 0 none (Except.ok ())).1 =
      Except.error EBUSY := by decide

/-- Claim C3 as amended: a reqbufs call with count 0 (and valid buffer and
memory types) succeeds if and only if the caller's priority is at least
the maximum among open handles, the device is unowned or owned by the
caller, no buffer is memory-mapped, and the stream is not running; any
failure is EBUSY; and on success all slots are freed, the count reset and
ownership released. -/
theorem C3_reqbufs_zero (st : ProxyState) (f : V4l2CameraFileM) (t m : Nat)
    (cfg : Option StreamConfigM) (al : Except Nat Unit)
    (ht : validateBufferType t = true) (hm : validateMemoryType m = true) :
    ((vidioc_reqbufs st f t m 0 cfg al).1 = Except.ok 0 ↔
      (maxPriority st ≤ f.priority ∧
        (st.owner = none ∨ st.owner = some f.id) ∧
        st.mmaps = [] ∧ st.running = false)) ∧
    ((maxPriority st ≤ f.priority ∧
        (st.owner = none ∨ st.owner = some f.id) ∧
        st.mmaps = [] ∧ st.running = false) →
      (vidioc_reqbufs st f t m 0 cfg al).2.buffers = [] ∧
      (vidioc_reqbufs st f t m 0 cfg al).2.bufferCount = 0 ∧
      (vidioc_reqbufs st f t m 0 cfg al).2.owner = none) ∧
    ((vidioc_reqbufs st f t m 0 cfg al).1 ≠ Except.ok 0 →
      (vidioc_reqbufs st f t m 0 cfg al).1 = Except.error EBUSY) := by
  unfold vidioc_reqbufs
  rw [if_neg (not_not_intro ⟨ht, hm⟩)]
  by_cases hp : f.priority < maxPriority st
  · rw [if_pos hp]
    refine ⟨⟨fun hh => absurd hh (by simp), fun hh => ((by omega : False).elim)⟩,
      fun hh => ?_, fun _ => rfl⟩
    exact absurd hh.1 (by omega)
  · rw [if_neg hp]
    by_cases ho : (¬hasOwnership st f ∧ st.owner.isSome = true)
    · rw [if_pos ho]
      have hfalse : ¬(st.owner = none ∨ st.owner = some f.id) := by
        rintro (h | h)
        · rw [h] at ho
          simp at ho
        · exact ho.1 h
      refine ⟨⟨fun hh => absurd hh (by simp), fun hh => absurd hh.2.1 hfalse⟩,
        fun hh => absurd hh.2.1 hfalse, fun _ => rfl⟩
    · rw [if_neg ho, if_pos rfl]
      by_cases hmp : st.mmaps = []
      · rw [if_neg (not_not_intro hmp)]
        by_cases hr : st.running = true
        · rw [if_pos hr]
          refine ⟨⟨fun hh => absurd hh (by simp), fun hh => ?_⟩,
            fun hh => ?_, fun _ => rfl⟩
          · rw [hh.2.2.2] at hr
            exact absurd hr Bool.false_ne_true
          · rw [hh.2.2.2] at hr
            exact absurd hr Bool.false_ne_true
        · rw [if_neg hr]
          have hdisj : st.owner = none ∨ st.owner = some f.id := by
            rcases not_and_or.mp ho with h | h
            · exact Or.inr (not_not.mp h)
            · exact Or.inl (Option.not_isSome_iff_eq_none.mp h)
          refine ⟨⟨fun _ => ?_, fun _ => rfl⟩, fun _ => ?_, fun hh => absurd rfl hh⟩
          · refine ⟨by omega, hdisj, hmp, by simpa using hr⟩
          · refine ⟨?_, ?_, ?_⟩
            · unfold release freeBuffersP
              split <;> rfl
            · unfold release freeBuffersP
              split <;> rfl
            · rcases hdisj with h | h <;> simp [release, freeBuffersP, h]
      · rw [if_pos hmp]
        refine ⟨⟨fun hh => absurd hh (by simp), fun hh => absurd hh.2.2.1 hmp⟩,
          fun hh => absurd hh.2.2.1 hmp, fun _ => rfl⟩

/-- Claim C3 witness: the owning handle frees to zero on an idle device
with no mappings: success, empty table, count zero, ownership released. -/
theorem C3_witness :
    (vidioc_reqbufs stC3X fileP2 1 1 0 none (Except.ok ())).1 = Except.ok 0 ∧
    (vidioc_reqbufs stC3X fileP2 1 1 0 none (Except.ok ())).2.buffers = [] ∧
    (vidioc_reqbufs stC3X fileP2 1 1 0 none (Except.ok ())).2.bufferCount = 0 ∧
    (vidioc_reqbufs stC3X fileP2 1 1 0 none (Except.ok ())).2.owner = none := by
  have h := C3_reqbufs_zero stC3X fileP2 1 1 none (Except.ok ())
    (by decide) (by decide)
  have hcond : maxPriority stC3X ≤ fileP2.priority ∧
      (stC3X.owner = none ∨ stC3X.owner = some fileP2.id) ∧
      stC3X.mmaps = [] ∧ stC3X.running = false := by decide
  exact ⟨h.1.mpr hcond, (h.2.1 hcond).1, (h.2.1 hcond).2.1, (h.2.1 hcond).2.2⟩

/-- Claim C4: evaluating reqbufs at the failing input.  On an idle device
with no buffers, a reqbufs call for four buffers whose backend
configuration is granted (four buffers) but whose backend allocation step
fails returns the backend's error with `bufferCount` already set to 4
while the buffer table is empty — the invariant "a non-zero buffer count
implies the buffer table has exactly that many entries" is broken by the
code at exactly the point the claim singles out. -/
theorem C4_reqbufs_alloc_failure :
    (vidioc_reqbufs stC4 fileA 1 1 4 (some scYUYV) (Except.error ENOMEM)).1 =
      Except.error ENOMEM ∧
    (vidioc_reqbufs stC4 fileA 1 1 4 (some scYUYV)
      (Except.error ENOMEM)).2.bufferCount = 4 ∧
    (vidioc_reqbufs stC4 fileA 1 1 4 (some scYUYV)
      (Except.error ENOMEM)).2.buffers.length = 0 ∧
    (vidioc_reqbufs stC4 fileA 1 1 4 (some scYUYV)
        (Except.error ENOMEM)).2.buffers.length ≠
      (vidioc_reqbufs stC4 fileA 1 1 4 (some scYUYV)
        (Except.error ENOMEM)).2.bufferCount := by decide

/-- Claim C9 counterexample: an unsupported request code whose direction
bits include write, called with a null argument, fails EFAULT — not the
distinct ENOTTY that the claimed validation order (supported-set check
first) would produce. -/
theorem C9_counterexample :
    ioctlCheck (IoctlReq.unknown false true) true = some EFAULT ∧
    EFAULT ≠ ENOTTY := by decide

/-- Claim C9 as amended: the dispatcher's validation order is (a) null
argument with write direction fails EFAULT, then (b) membership in the
supported set fails ENOTTY, then (c) null argument with read direction
fails EFAULT; unsupported codes still fail ENOTTY — distinguishable from
argument-validation failures — whenever the argument is non-null or the
code lacks the write direction. -/
theorem C9_ioctl_validation (req : IoctlReq) (argNull : Bool) :
    (argNull = true → reqDirWrite req = true →
      ioctlCheck req argNull = some EFAULT) ∧
    (isSupported req = false → (argNull = false ∨ reqDirWrite req = false) →
      ioctlCheck req argNull = some ENOTTY) ∧
    (isSupported req = true → argNull = true → reqDirRead req = true →
      ioctlCheck req argNull = some EFAULT) ∧
    (isSupported req = true → argNull = false →
      ioctlCheck req argNull = none) := by
  refine ⟨?_, ?_, ?_, ?_⟩
  · intro h1 h2
    simp [ioctlCheck, h1, h2]
  · intro h1 h2
    rcases h2 with h2 | h2 <;> simp [ioctlCheck, h1, h2]
  · intro h1 h2 h3
    by_cases hw : reqDirWrite req = true
    · simp [ioctlCheck, h1, h2, h3, hw]
    · simp only [Bool.not_eq_true] at hw
      simp [ioctlCheck, h1, h2, h3, hw]
  · intro h1 h2
    simp [ioctlCheck, h1, h2]

/-- Claim C9 witness: concrete requests exercising each validation
outcome. -/
theorem C9_witness :
    ioctlCheck (IoctlReq.cmd VidiocCmd.s_fmt) true = some EFAULT ∧
    ioctlCheck (IoctlReq.unknown true true) false = some ENOTTY ∧
    ioctlCheck (IoctlReq.cmd VidiocCmd.querycap) true = some EFAULT ∧
    ioctlCheck (IoctlReq.cmd VidiocCmd.reqbufs) false = none := by
  refine ⟨?_, ?_, ?_, ?_⟩
  · exact (C9_ioctl_validation (IoctlReq.cmd VidiocCmd.s_fmt) true).1 rfl rfl
  · exact (C9_ioctl_validation (IoctlReq.unknown true true) false).2.1 rfl
      (Or.inl rfl)
  · exact (C9_ioctl_validation (IoctlReq.cmd VidiocCmd.querycap) true).2.2.1
      rfl rfl rfl
  · exact (C9_ioctl_validation (IoctlReq.cmd VidiocCmd.reqbufs) false).2.2.2
      rfl rfl

/-- Claim C10: evaluating the completion-draining step at the failing
input.  For a successful completion with timestamp 1500000 nanoseconds the
drain records tv_sec = 0 and tv_usec = 1500000 mod 10^6 = 500000, whereas
the claimed consistent microsecond split is (1500000 mod 10^9) / 10^3 =
1500; the recorded pair does not satisfy
tv_sec * 10^6 + tv_usec = t / 10^3. -/
theorem C10_timestamp_split :
    ((updateBuffers (completionArrives stLive
        ⟨0, 614400, 1500000, 7, FrameStatus.success⟩)).buffers.getD 0
      emptyBuf).tvSec = 0 ∧
    ((updateBuffers (completionArrives stLive
        ⟨0, 614400, 1500000, 7, FrameStatus.success⟩)).buffers.getD 0
      emptyBuf).tvUsec = 500000 ∧
    (1500000 % 1000000000) / 1000 = 1500 ∧
    ¬(0 * 1000000 + 500000 = 1500000 / 1000) := by decide

end V4l2
